import Mathlib

/-!
Verification of the rust-worker template handler
(src/templates/rust-worker/src/lib.rs).

The handler is

  pub async fn main(req: Request, env: Env, _ctx: worker::Context) -> Result<Response> {
      let url = req.url()?;
      let data = serde_json::json!({
          "message": "Hello from Rust Worker!",
          "service": "rust-worker-template",
          "url": url.to_string(),
          "timestamp": chrono::Utc::now().to_rfc3339()
      });
      Response::from_json(&data)
  }

The shallow embedding below models the handler together with the parts of
its dependencies that determine its observable behaviour: the url crate's
parse / to_string pair (on the hierarchical scheme://host[:port][path][?query][#frag]
subset, including default-port elision, empty-path normalisation and ASCII
case folding of scheme and host), chrono's DateTime<Utc>::to_rfc3339
(SecondsFormat::AutoSi, use_z = false), and serde_json's serialisation of a
Value built by the json! macro (objects are BTreeMaps, so keys serialise in
sorted order).  The clock read performed by Utc::now() is modelled by
passing the observed instant as an explicit argument.
-/

namespace RustWorker

/-- Model of chrono DateTime<Utc> restricted to instants that Utc::now can
observe and that the RFC3339 writer renders with a four-digit year: a plain
civil date and time in UTC with nanosecond precision and no leap second. -/
structure DateTimeUtc where
  year : Nat
  month : Nat
  day : Nat
  hour : Nat
  minute : Nat
  second : Nat
  nanos : Nat
deriving DecidableEq

/-- Gregorian leap-year test, as in chrono's calendar arithmetic. -/
def isLeapYear (y : Nat) : Bool :=
  (y % 4 = 0 && y % 100 ≠ 0) || y % 400 = 0

/-- Number of days of a month, as in chrono's calendar arithmetic. -/
def daysInMonth (y m : Nat) : Nat :=
  if m = 2 then (if isLeapYear y then 29 else 28)
  else if m = 4 ∨ m = 6 ∨ m = 9 ∨ m = 11 then 30
  else 31

/-- Instants representable by chrono's DateTime<Utc> (no leap seconds) whose
year fits the four-digit RFC3339 date format. -/
def DateTimeUtc.Valid (t : DateTimeUtc) : Prop :=
  t.year < 10000 ∧ 1 ≤ t.month ∧ t.month ≤ 12 ∧ 1 ≤ t.day ∧
    t.day ≤ daysInMonth t.year t.month ∧ t.hour < 24 ∧ t.minute < 60 ∧
    t.second < 60 ∧ t.nanos < 1000000000

instance (t : DateTimeUtc) : Decidable t.Valid := by
  unfold DateTimeUtc.Valid
  infer_instance

/-- ASCII decimal digit character for a value below ten. -/
def digitChar (n : Nat) : Char := Char.ofNat (48 + n)

/-- Two-digit zero-padded rendering; fields of a chrono date or time always
fit two digits, the mod mirrors that bounded range. -/
def pad2 (n : Nat) : List Char := [digitChar (n / 10 % 10), digitChar (n % 10)]

/-- Four-digit zero-padded rendering of the year. -/
def pad4 (n : Nat) : List Char := pad2 (n / 100) ++ pad2 (n % 100)

/-- Three-digit zero-padded rendering of one group of subsecond digits. -/
def pad3 (n : Nat) : List Char := digitChar (n / 100 % 10) :: pad2 (n % 100)

/-- Six-digit zero-padded rendering (microsecond count). -/
def pad6 (n : Nat) : List Char := pad3 (n / 1000) ++ pad3 (n % 1000)

/-- Nine-digit zero-padded rendering (nanosecond count). -/
def pad9 (n : Nat) : List Char :=
  pad3 (n / 1000000) ++ (pad3 (n / 1000 % 1000) ++ pad3 (n % 1000))

/-- Fractional-second part of chrono's SecondsFormat::AutoSi: empty for a
whole second, otherwise a dot followed by 3, 6 or 9 digits, whichever
minimally represents the nanosecond count exactly. -/
def fracList (n : Nat) : List Char :=
  if n = 0 then []
  else if n % 1000000 = 0 then '.' :: pad3 (n / 1000000)
  else if n % 1000 = 0 then '.' :: pad6 (n / 1000)
  else '.' :: pad9 n

/-- Character list of chrono's DateTime<Utc>::to_rfc3339 output: date, the
letter T, time, optional fraction, and the numeric UTC offset +00:00. -/
def rfc3339List (t : DateTimeUtc) : List Char :=
  pad4 t.year ++ '-' :: (pad2 t.month ++ '-' :: (pad2 t.day ++
    'T' :: (pad2 t.hour ++ ':' :: (pad2 t.minute ++ ':' :: (pad2 t.second ++
      (fracList t.nanos ++ '+' :: '0' :: '0' :: ':' :: '0' :: '0' :: []))))))

/-- Model of chrono's DateTime<Utc>::to_rfc3339. -/
def DateTimeUtc.to_rfc3339 (t : DateTimeUtc) : String := String.mk (rfc3339List t)

/-- Value of an ASCII decimal digit character, failing on any other character. -/
def readDigit (c : Char) : Option Nat :=
  if 48 ≤ c.toNat ∧ c.toNat ≤ 57 then some (c.toNat - 48) else none

/-- Read exactly two decimal digits. -/
def read2 (cs : List Char) : Option (Nat × List Char) :=
  match cs with
  | a :: b :: rest =>
    (readDigit a).bind fun x => (readDigit b).bind fun y => some (10 * x + y, rest)
  | _ => none

/-- Read exactly four decimal digits. -/
def read4 (cs : List Char) : Option (Nat × List Char) :=
  (read2 cs).bind fun p => (read2 p.2).bind fun q => some (100 * p.1 + q.1, q.2)

/-- Read exactly three decimal digits. -/
def read3 (cs : List Char) : Option (Nat × List Char) :=
  match cs with
  | c :: rest =>
    (readDigit c).bind fun d => (read2 rest).bind fun p => some (100 * d + p.1, p.2)
  | [] => none

/-- Read the optional fractional-second group of an RFC3339 timestamp in the
shape produced by AutoSi: 3, 6 or 9 digits after a dot, ended by the plus
sign of the UTC offset. -/
def readFrac (cs : List Char) : Option (Nat × List Char) :=
  if cs.head? = some '.' then
    (read3 cs.tail).bind fun p =>
    if p.2.head? = some '+' then some (p.1 * 1000000, p.2)
    else (read3 p.2).bind fun q =>
      if q.2.head? = some '+' then some (p.1 * 1000000 + q.1 * 1000, q.2)
      else (read3 q.2).bind fun r => some (p.1 * 1000000 + q.1 * 1000 + r.1, r.2)
  else some (0, cs)

/-- Consume one expected literal character. -/
def expect (c : Char) (cs : List Char) : Option (List Char) :=
  match cs with
  | d :: rest => if d = c then some rest else none
  | [] => none

/-- Read a calendar date in the form YYYY-MM-DD. -/
def readDate (cs : List Char) : Option ((Nat × Nat × Nat) × List Char) :=
  (read4 cs).bind fun py =>
  (expect '-' py.2).bind fun c1 =>
  (read2 c1).bind fun pmo =>
  (expect '-' pmo.2).bind fun c2 =>
  (read2 c2).bind fun pd =>
  some ((py.1, pmo.1, pd.1), pd.2)

/-- Read a time of day in the form HH:MM:SS. -/
def readTime (cs : List Char) : Option ((Nat × Nat × Nat) × List Char) :=
  (read2 cs).bind fun ph =>
  (expect ':' ph.2).bind fun c1 =>
  (read2 c1).bind fun pmi =>
  (expect ':' pmi.2).bind fun c2 =>
  (read2 c2).bind fun ps =>
  some ((ph.1, pmi.1, ps.1), ps.2)

/-- Read the numeric UTC offset +00:00 emitted by to_rfc3339 on Utc values. -/
def readOffsetUtc (cs : List Char) : Option (List Char) :=
  (expect '+' cs).bind fun c1 =>
  (read2 c1).bind fun poh =>
  (expect ':' poh.2).bind fun c2 =>
  (read2 c2).bind fun pom =>
  if poh.1 = 0 ∧ pom.1 = 0 then some pom.2 else none

/-- Positional RFC3339 reader for the UTC profile emitted by to_rfc3339:
date, T, time, optional fraction, and the literal offset +00:00. -/
def parseRfc3339List (cs : List Char) : Option DateTimeUtc :=
  (readDate cs).bind fun pd =>
  (expect 'T' pd.2).bind fun c1 =>
  (readTime c1).bind fun pt =>
  (readFrac pt.2).bind fun pn =>
  (readOffsetUtc pn.2).bind fun rest =>
  if rest = [] then
    some ⟨pd.1.1, pd.1.2.1, pd.1.2.2, pt.1.1, pt.1.2.1, pt.1.2.2, pn.1⟩
  else none

/-- RFC3339 reader on strings. -/
def parseRfc3339 (s : String) : Option DateTimeUtc := parseRfc3339List s.data

/-- Model of url::Url restricted to hierarchical URLs: a scheme, a nonempty
host, an optional explicit non-default port, a path, an optional query and
an optional fragment.  Percent-encoding, userinfo, host punycoding and
dot-segment removal are outside the modelled subset. -/
structure Url where
  scheme : String
  host : String
  port : Option Nat
  path : String
  query : Option String
  fragment : Option String
deriving DecidableEq

/-- ASCII decimal digit test, as in the url crate's port reader. -/
def isDigitChar (c : Char) : Bool := 48 ≤ c.toNat && c.toNat ≤ 57

/-- Characters allowed in a scheme (RFC 3986: ALPHA, DIGIT, plus, minus, dot). -/
def isSchemeChar (c : Char) : Bool :=
  (97 ≤ c.toNat && c.toNat ≤ 122) || (65 ≤ c.toNat && c.toNat ≤ 90) ||
    isDigitChar c || c == '+' || c == '-' || c == '.'

/-- Delimiters that terminate the host of a hierarchical URL. -/
def isHostEnd (c : Char) : Bool := c == ':' || c == '/' || c == '?' || c == '#'

/-- ASCII lowercasing applied by the url crate to scheme and host. -/
def lowerAscii (cs : List Char) : List Char :=
  cs.map fun c => if 65 ≤ c.toNat && c.toNat ≤ 90 then Char.ofNat (c.toNat + 32) else c

/-- Default port of the special schemes known to the url crate. -/
def defaultPort (scheme : String) : Option Nat :=
  if scheme = "http" then some 80
  else if scheme = "https" then some 443
  else if scheme = "ws" then some 80
  else if scheme = "wss" then some 443
  else if scheme = "ftp" then some 21
  else none

/-- Special schemes per the WHATWG URL standard: their empty path serialises
as a single slash. -/
def isSpecial (scheme : String) : Bool :=
  scheme == "http" || scheme == "https" || scheme == "ws" || scheme == "wss" ||
    scheme == "ftp" || scheme == "file"

/-- Numeric value of a digit string, as the url crate's port reader computes it. -/
def digitsToNat (cs : List Char) : Nat :=
  cs.foldl (fun a c => 10 * a + (c.toNat - 48)) 0

/-- Query and fragment of the remainder that follows the path. -/
def afterPath (p : String) (r : List Char) : String × Option String × Option String :=
  match r with
  | '?' :: rest =>
    let qCs := rest.takeWhile (fun c => !(c == '#'))
    match rest.drop qCs.length with
    | '#' :: f => (p, some (String.mk qCs), some (String.mk f))
    | _ => (p, some (String.mk qCs), none)
  | '#' :: f => (p, none, some (String.mk f))
  | _ => (p, none, none)

/-- Path, query and fragment of the remainder that follows the authority;
an absent path of a special scheme normalises to a single slash. -/
def parseTail (special : Bool) (r : List Char) : String × Option String × Option String :=
  match r with
  | '/' :: _ =>
    let pathCs := r.takeWhile (fun c => !(c == '?' || c == '#'))
    afterPath (String.mk pathCs) (r.drop pathCs.length)
  | _ => afterPath (if special then "/" else "") r

/-- A port must end at a path, query or fragment delimiter or at the end of
the input, otherwise the URL is rejected. -/
def portEndOk (r : List Char) : Bool :=
  match r with
  | [] => true
  | '/' :: _ => true
  | '?' :: _ => true
  | '#' :: _ => true
  | _ => false

/-- Port normalisation of the url crate: an empty port and the default port
of the scheme serialise as no port at all. -/
def normPort (scheme : String) (p : Option Nat) : Option Nat :=
  if p = defaultPort scheme then none else p

/-- Assemble the parsed URL from scheme, host, normalised port, and the
remainder holding path, query and fragment. -/
def buildUrl (scheme host : String) (port : Option Nat) (r : List Char) : Url :=
  let t := parseTail (isSpecial scheme) r
  ⟨scheme, host, port, t.1, t.2.1, t.2.2⟩

/-- Model of url::Url::parse on the hierarchical subset
scheme://host[:port][/path][?query][#fragment].  Inputs outside the subset
(no scheme, empty host, userinfo, a non-numeric or overflowing port) are
rejected, as the url crate rejects them or as a subset restriction of the
model. -/
def parseUrlList (cs : List Char) : Option Url :=
  let schemeCs := cs.takeWhile isSchemeChar
  match cs.drop schemeCs.length with
  | ':' :: '/' :: '/' :: rest1 =>
    if schemeCs.isEmpty then none
    else
      let scheme := String.mk (lowerAscii schemeCs)
      let hostCs := rest1.takeWhile (fun c => !(isHostEnd c))
      if hostCs.isEmpty then none
      else
        let host := String.mk (lowerAscii hostCs)
        match rest1.drop hostCs.length with
        | ':' :: rest3 =>
          let portCs := rest3.takeWhile isDigitChar
          let rest4 := rest3.drop portCs.length
          if portEndOk rest4 then
            if digitsToNat portCs ≤ 65535 then
              some (buildUrl scheme host
                (normPort scheme (if portCs.isEmpty then none else some (digitsToNat portCs)))
                rest4)
            else none
          else none
        | rest2 => some (buildUrl scheme host none rest2)
  | _ => none

/-- Model of url::Url::parse. -/
def Url.parse (s : String) : Option Url := parseUrlList s.data

/-- Model of url::Url::to_string (the Display serialisation): scheme, host,
explicit port if any, path, query and fragment. -/
def Url.to_string (u : Url) : String :=
  u.scheme ++ "://" ++ u.host ++
    (match u.port with
     | some p => ":" ++ Nat.repr p
     | none => "") ++
    u.path ++
    (match u.query with
     | some q => "?" ++ q
     | none => "") ++
    (match u.fragment with
     | some f => "#" ++ f
     | none => "")

/-- Model of serde_json::Value restricted to the shapes the handler builds:
strings and objects. -/
inductive Json where
  | str : String → Json
  | obj : List (String × Json) → Json

/-- Hexadecimal digit characters used by serde_json's control-character escapes. -/
def hexDigitChar (n : Nat) : Char :=
  if n < 10 then digitChar n else Char.ofNat (87 + n)

/-- Escape of one character inside a JSON string, as serde_json writes it. -/
def escapeJsonChar (c : Char) : List Char :=
  if c = '\"' then ['\\', '\"']
  else if c = '\\' then ['\\', '\\']
  else if c.toNat ≥ 32 then [c]
  else if c = '\x08' then ['\\', 'b']
  else if c = '\x09' then ['\\', 't']
  else if c = '\x0a' then ['\\', 'n']
  else if c = '\x0c' then ['\\', 'f']
  else if c = '\x0d' then ['\\', 'r']
  else ['\\', 'u', '0', '0', hexDigitChar (c.toNat / 16), hexDigitChar (c.toNat % 16)]

/-- Escape of every character of a string body. -/
def escList : List Char → List Char
  | [] => []
  | c :: r => escapeJsonChar c ++ escList r

/-- A JSON string literal: quote, escaped body, quote. -/
def quoteJson (s : String) : String :=
  String.mk ('\"' :: escList s.data ++ ['\"'])

mutual

/-- Serialisation of a JSON value, with object fields written in the order
of the field list. -/
def renderJson : Json → String
  | .str s => quoteJson s
  | .obj fs => "\x7b" ++ renderFields fs ++ "\x7d"

/-- Serialisation of the comma-separated field list of a JSON object. -/
def renderFields : List (String × Json) → String
  | [] => ""
  | [kv] => quoteJson kv.1 ++ ":" ++ renderJson kv.2
  | kv :: rest => quoteJson kv.1 ++ ":" ++ renderJson kv.2 ++ "," ++ renderFields rest

end

/-- Byte-order comparison of keys, the iteration order of serde_json's
BTreeMap-backed object map (the keys here are ASCII). -/
def leChars : List Char → List Char → Bool
  | [], _ => true
  | _ :: _, [] => false
  | a :: as, b :: bs =>
    if a.toNat < b.toNat then true
    else if b.toNat < a.toNat then false
    else leChars as bs

/-- Ordered insertion of one field by key. -/
def insertField (kv : String × Json) : List (String × Json) → List (String × Json)
  | [] => [kv]
  | kv1 :: rest =>
    if leChars kv.1.data kv1.1.data then kv :: kv1 :: rest
    else kv1 :: insertField kv rest

/-- Sorted field list: serde_json's default Map is a BTreeMap, so object
keys serialise in ascending key order, not insertion order. -/
def sortFields : List (String × Json) → List (String × Json)
  | [] => []
  | kv :: rest => insertField kv (sortFields rest)

/-- Model of serde_json::to_string on the one flat object the handler
builds: the object's keys are emitted in sorted order. -/
def serdeToString (j : Json) : String :=
  match j with
  | .obj fs => renderJson (.obj (sortFields fs))
  | j => renderJson j

/-- First field of an object with the given key whose value is a string. -/
def getField : List (String × Json) → String → Option Json
  | [], _ => none
  | (k, v) :: rest, key => if k = key then some v else getField rest key

/-- String value of an object field, the observable accessor used to state
claims about the payload. -/
def Json.getStr (j : Json) (key : String) : Option String :=
  match j with
  | .obj fs =>
    match getField fs key with
    | some (.str v) => some v
    | _ => none
  | _ => none

/-- Keys of a JSON object in field-list order. -/
def Json.keys (j : Json) : List String :=
  match j with
  | .obj fs => fs.map Prod.fst
  | _ => []

/-- Errors of the worker crate that this handler can produce: a URL parse
failure from Request::url, or a serialisation failure from
Response::from_json. -/
inductive WorkerError where
  | urlParseError
  | jsonError
deriving DecidableEq

/-- Model of worker::Request: the handler reads only the URL string, the
other fields witness that the handler ignores them. -/
structure Request where
  method : String
  urlString : String
  headers : List (String × String)
  body : Option String

/-- Model of worker::Env: opaque bindings the handler never reads. -/
structure Env where
  bindings : List (String × String)

/-- Model of worker::Context: opaque, never read. -/
structure Context where
  dummy : Unit

/-- Model of worker::Request::url: parse the raw URL string of the request,
failing with an error when it cannot be parsed. -/
def Request.url (r : Request) : Except WorkerError Url :=
  match Url.parse r.urlString with
  | some u => .ok u
  | none => .error .urlParseError

/-- Model of worker::Response: status code, headers and body. -/
structure Response where
  status : Nat
  headers : List (String × String)
  body : String
deriving DecidableEq

/-- Model of worker::Response::from_json: serialise the value, set status
200 and the JSON content type.  serde_json::to_string cannot fail on a
value made of strings and string-keyed objects, so the error branch of the
source is unreachable and the model serialisation is total. -/
def Response.from_json (j : Json) : Except WorkerError Response :=
  .ok ⟨200, [("content-type", "application/json")], serdeToString j⟩

/-- The JSON payload the handler builds, in the field order of the json!
literal in the source. -/
def mainData (url : Url) (now : DateTimeUtc) : Json :=
  .obj [("message", .str "Hello from Rust Worker!"),
        ("service", .str "rust-worker-template"),
        ("url", .str url.to_string),
        ("timestamp", .str now.to_rfc3339)]

/-- Model of the handler main from src/templates/rust-worker/src/lib.rs.
The instant observed by chrono::Utc::now() is passed as the explicit
argument now; the question-mark operator on req.url() is the match on the
Except value. -/
def main (req : Request) (env : Env) (ctx : Context) (now : DateTimeUtc) :
    Except WorkerError Response :=
  match Request.url req with
  | .error e => .error e
  | .ok url => Response.from_json (mainData url now)

theorem some_bind_eq {α β : Type} (a : α) (f : α → Option β) :
    (some a).bind f = f a := rfl

theorem readDigit_digitChar : ∀ d : Nat, d < 10 → readDigit (digitChar d) = some d := by
  decide

theorem digitChar_ne_plus : ∀ d : Nat, d < 10 → digitChar d ≠ '+' := by
  decide

theorem expect_cons (c : Char) (rest : List Char) : expect c (c :: rest) = some rest := by
  simp [expect]

theorem read2_pad2 (n : Nat) (rest : List Char) (h : n < 100) :
    read2 (pad2 n ++ rest) = some (n, rest) := by
  have h1 : n / 10 % 10 < 10 := by omega
  have h2 : n % 10 < 10 := by omega
  simp only [pad2, List.cons_append, List.nil_append, read2,
    readDigit_digitChar _ h1, readDigit_digitChar _ h2, some_bind_eq]
  have hv : 10 * (n / 10 % 10) + n % 10 = n := by omega
  rw [hv]

theorem read4_pad4 (n : Nat) (rest : List Char) (h : n < 10000) :
    read4 (pad4 n ++ rest) = some (n, rest) := by
  have hq : n / 100 < 100 := by omega
  have hr : n % 100 < 100 := by omega
  simp only [pad4, List.append_assoc, read4, read2_pad2 _ _ hq, some_bind_eq,
    read2_pad2 _ _ hr]
  have hv : 100 * (n / 100) + n % 100 = n := by omega
  rw [hv]

theorem read3_pad3 (n : Nat) (rest : List Char) (h : n < 1000) :
    read3 (pad3 n ++ rest) = some (n, rest) := by
  have hq : n / 100 % 10 < 10 := by omega
  have hr : n % 100 < 100 := by omega
  simp only [pad3, List.cons_append, read3, readDigit_digitChar _ hq, some_bind_eq,
    read2_pad2 _ _ hr]
  have hv : 100 * (n / 100 % 10) + n % 100 = n := by omega
  rw [hv]

theorem head_pad3_ne_plus (x : Nat) (ys : List Char) :
    ¬ (pad3 x ++ ys).head? = some '+' := by
  have hd := digitChar_ne_plus (x / 100 % 10) (by omega)
  simp [pad3]
  exact hd

theorem readFrac_frac (n : Nat) (rest : List Char) (h : n < 1000000000) :
    readFrac (fracList n ++ '+' :: rest) = some (n, '+' :: rest) := by
  by_cases h0 : n = 0
  · subst h0
    simp [fracList, readFrac]
  · by_cases h6 : n % 1000000 = 0
    · have hb : n / 1000000 < 1000 := by omega
      simp only [fracList, if_neg h0, if_pos h6, List.cons_append, readFrac,
        List.head?_cons, List.tail_cons, read3_pad3 _ _ hb, some_bind_eq, if_true]
      have hv : n / 1000000 * 1000000 = n := by omega
      rw [hv]
    · by_cases h3 : n % 1000 = 0
      · have hb1 : n / 1000 / 1000 < 1000 := by omega
        have hb2 : n / 1000 % 1000 < 1000 := by omega
        simp only [fracList, if_neg h0, if_neg h6, if_pos h3, pad6, List.append_assoc,
          List.cons_append, readFrac, List.head?_cons, List.tail_cons,
          read3_pad3 _ _ hb1, some_bind_eq, if_true]
        rw [if_neg (head_pad3_ne_plus _ _)]
        simp only [read3_pad3 _ _ hb2, some_bind_eq, List.head?_cons, if_true]
        have hv : n / 1000 / 1000 * 1000000 + n / 1000 % 1000 * 1000 = n := by omega
        rw [hv]
      · have hb1 : n / 1000000 < 1000 := by omega
        have hb2 : n / 1000 % 1000 < 1000 := by omega
        have hb3 : n % 1000 < 1000 := by omega
        simp only [fracList, if_neg h0, if_neg h6, if_neg h3, pad9, List.append_assoc,
          List.cons_append, readFrac, List.head?_cons, List.tail_cons,
          read3_pad3 _ _ hb1, some_bind_eq, if_true]
        rw [if_neg (head_pad3_ne_plus _ _)]
        simp only [read3_pad3 _ _ hb2, some_bind_eq, List.head?_cons, if_true]
        rw [if_neg (head_pad3_ne_plus _ _)]
        simp only [read3_pad3 _ _ hb3, some_bind_eq]
        have hv : n / 1000000 * 1000000 + n / 1000 % 1000 * 1000 + n % 1000 = n := by
          omega
        rw [hv]

theorem readDate_pads (y mo d : Nat) (rest : List Char)
    (hy : y < 10000) (hmo : mo < 100) (hd : d < 100) :
    readDate (pad4 y ++ '-' :: (pad2 mo ++ '-' :: (pad2 d ++ rest))) =
      some ((y, mo, d), rest) := by
  simp only [readDate, read4_pad4 _ _ hy, some_bind_eq, expect_cons,
    read2_pad2 _ _ hmo, read2_pad2 _ _ hd]

theorem readTime_pads (h mi s : Nat) (rest : List Char)
    (hh : h < 100) (hmi : mi < 100) (hs : s < 100) :
    readTime (pad2 h ++ ':' :: (pad2 mi ++ ':' :: (pad2 s ++ rest))) =
      some ((h, mi, s), rest) := by
  simp only [readTime, read2_pad2 _ _ hh, some_bind_eq, expect_cons,
    read2_pad2 _ _ hmi, read2_pad2 _ _ hs]

theorem readOffset_utc (rest : List Char) :
    readOffsetUtc ('+' :: '0' :: '0' :: ':' :: '0' :: '0' :: rest) = some rest := rfl

theorem daysInMonth_le (y m : Nat) : daysInMonth y m ≤ 31 := by
  unfold daysInMonth
  split
  · split <;> omega
  · split <;> omega

/-- Rendering an instant with to_rfc3339 and reading the string back with the
positional RFC3339 reader recovers the instant exactly. -/
theorem parseRfc3339_roundtrip (t : DateTimeUtc) (h : t.Valid) :
    parseRfc3339 t.to_rfc3339 = some t := by
  obtain ⟨hy, hm1, hm2, hd1, hd2, hh, hmi, hs, hn⟩ := h
  have hday : t.day < 100 := by
    have := daysInMonth_le t.year t.month
    omega
  have hmo : t.month < 100 := by omega
  have hh2 : t.hour < 100 := by omega
  have hmi2 : t.minute < 100 := by omega
  have hs2 : t.second < 100 := by omega
  show parseRfc3339List (rfc3339List t) = some t
  rw [rfc3339List]
  unfold parseRfc3339List
  rw [readDate_pads _ _ _ _ hy hmo hday, some_bind_eq]
  dsimp only
  rw [expect_cons, some_bind_eq, readTime_pads _ _ _ _ hh2 hmi2 hs2, some_bind_eq]
  dsimp only
  rw [readFrac_frac _ _ hn, some_bind_eq]
  dsimp only
  rw [readOffset_utc, some_bind_eq]
  simp

/-- to_rfc3339 is injective on valid instants: the rendered text determines
the instant. -/
theorem to_rfc3339_inj (t1 t2 : DateTimeUtc) (h1 : t1.Valid) (h2 : t2.Valid)
    (he : t1.to_rfc3339 = t2.to_rfc3339) : t1 = t2 := by
  have p1 := parseRfc3339_roundtrip t1 h1
  have p2 := parseRfc3339_roundtrip t2 h2
  rw [he, p2] at p1
  exact (Option.some.inj p1).symm

theorem str_data_append (a b : String) : (a ++ b).data = a.data ++ b.data := rfl

/-- On a parsable URL string the handler returns exactly the 200 JSON
response whose body serialises the four-field payload. -/
theorem main_ok_eq (req : Request) (env : Env) (ctx : Context) (now : DateTimeUtc)
    (u : Url) (h : Url.parse req.urlString = some u) :
    main req env ctx now =
      .ok ⟨200, [("content-type", "application/json")], serdeToString (mainData u now)⟩ := by
  simp [main, Request.url, h, Response.from_json]

/-- On an unparsable URL string the handler returns the URL-parse error. -/
theorem main_err_eq (req : Request) (env : Env) (ctx : Context) (now : DateTimeUtc)
    (h : Url.parse req.urlString = none) :
    main req env ctx now = .error .urlParseError := by
  simp [main, Request.url, h]

/-- The rendered RFC3339 text splits as a date-time prefix followed by the
literal offset +00:00. -/
theorem rfc3339List_split (t : DateTimeUtc) :
    rfc3339List t =
      (pad4 t.year ++ '-' :: (pad2 t.month ++ '-' :: (pad2 t.day ++
        'T' :: (pad2 t.hour ++ ':' :: (pad2 t.minute ++ ':' :: (pad2 t.second ++
          fracList t.nanos)))))) ++ ['+', '0', '0', ':', '0', '0'] := by
  simp [rfc3339List, List.append_assoc]

/-- C1: for every request whose URL extracts successfully (and the payload,
made of strings, always serialises), the handler returns status 200 with
JSON content type, and the body is the serialisation of a JSON object
holding exactly the four keys message, service, url and timestamp. -/
theorem c1_success_shape (req : Request) (env : Env) (ctx : Context) (now : DateTimeUtc)
    (u : Url) (h : Url.parse req.urlString = some u) :
    ∃ resp : Response, main req env ctx now = .ok resp ∧
      resp.status = 200 ∧
      ("content-type", "application/json") ∈ resp.headers ∧
      ∃ fields, resp.body = renderJson (.obj fields) ∧
        (fields.map Prod.fst).Perm ["message", "service", "url", "timestamp"] := by
  refine ⟨⟨200, [("content-type", "application/json")], serdeToString (mainData u now)⟩,
    main_ok_eq req env ctx now u h, rfl, by simp, ?_⟩
  refine ⟨[("message", .str "Hello from Rust Worker!"),
          ("service", .str "rust-worker-template"),
          ("timestamp", .str now.to_rfc3339),
          ("url", .str u.to_string)], rfl, ?_⟩
  simp only [List.map_cons, List.map_nil]
  decide

/-- Witness for c1_success_shape at a concrete request and instant. -/
theorem c1_success_shape_witness :
    ∃ resp : Response,
      main ⟨"GET", "https://example.com/foo?x=1", [], none⟩ ⟨[]⟩ ⟨()⟩
          ⟨2024, 6, 1, 12, 0, 0, 0⟩ = .ok resp ∧
      resp.status = 200 ∧
      ("content-type", "application/json") ∈ resp.headers ∧
      ∃ fields, resp.body = renderJson (.obj fields) ∧
        (fields.map Prod.fst).Perm ["message", "service", "url", "timestamp"] :=
  c1_success_shape _ _ _ _ ⟨"https", "example.com", none, "/foo", some "x=1", none⟩ rfl

/-- C2 counterexample: the request URL string https://example.com:443 is
accepted, yet the url field of the payload is the normalised serialisation
https://example.com/ of the parsed URL, not the string as received. -/
theorem c2_url_not_raw_counterexample :
    main ⟨"GET", "https://example.com:443", [], none⟩ ⟨[]⟩ ⟨()⟩ ⟨2024, 1, 1, 0, 0, 0, 0⟩ =
      .ok ⟨200, [("content-type", "application/json")],
        serdeToString (mainData ⟨"https", "example.com", none, "/", none, none⟩
          ⟨2024, 1, 1, 0, 0, 0, 0⟩)⟩ ∧
    (mainData ⟨"https", "example.com", none, "/", none, none⟩
        ⟨2024, 1, 1, 0, 0, 0, 0⟩).getStr "url" = some "https://example.com/" ∧
    ("https://example.com/" : String) ≠ "https://example.com:443" :=
  ⟨main_ok_eq _ _ _ _ _ rfl, rfl, by decide⟩

/-- C2 amended: the url field of a successful response is the serialisation
of the parsed URL, so it equals the URL string as received exactly when that
string is already in normalised form. -/
theorem c2_url_roundtrip_normalized (req : Request) (env : Env) (ctx : Context)
    (now : DateTimeUtc) (u : Url) (h : Url.parse req.urlString = some u)
    (hnorm : u.to_string = req.urlString) :
    main req env ctx now =
      .ok ⟨200, [("content-type", "application/json")], serdeToString (mainData u now)⟩ ∧
    (mainData u now).getStr "url" = some req.urlString := by
  refine ⟨main_ok_eq req env ctx now u h, ?_⟩
  rw [← hnorm]
  rfl

/-- Witness for c2_url_roundtrip_normalized at an already-normalised URL. -/
theorem c2_url_roundtrip_normalized_witness :
    main ⟨"GET", "https://example.com/foo?x=1", [], none⟩ ⟨[]⟩ ⟨()⟩
        ⟨2024, 6, 1, 12, 0, 0, 0⟩ =
      .ok ⟨200, [("content-type", "application/json")],
        serdeToString (mainData ⟨"https", "example.com", none, "/foo", some "x=1", none⟩
          ⟨2024, 6, 1, 12, 0, 0, 0⟩)⟩ ∧
    (mainData ⟨"https", "example.com", none, "/foo", some "x=1", none⟩
        ⟨2024, 6, 1, 12, 0, 0, 0⟩).getStr "url" = some "https://example.com/foo?x=1" :=
  c2_url_roundtrip_normalized _ _ _ _ _ rfl rfl

/-- C3: an invocation fails exactly when the URL string does not parse, the
only error values are the URL-parse error and the JSON error, and a failing
invocation returns no success response. -/
theorem c3_error_conditions (req : Request) (env : Env) (ctx : Context) (now : DateTimeUtc) :
    ((∃ e, main req env ctx now = .error e) ↔ Url.parse req.urlString = none) ∧
    (∀ e, main req env ctx now = .error e →
      (e = .urlParseError ∨ e = .jsonError) ∧ ∀ resp, ¬ main req env ctx now = .ok resp) := by
  cases hp : Url.parse req.urlString with
  | none =>
    have hm := main_err_eq req env ctx now hp
    refine ⟨⟨fun _ => rfl, fun _ => ⟨_, hm⟩⟩, fun e he => ⟨?_, fun resp hr => ?_⟩⟩
    · rw [hm] at he
      exact .inl (Except.error.inj he).symm
    · rw [hm] at hr
      exact Except.noConfusion hr
  | some u =>
    have hm := main_ok_eq req env ctx now u hp
    refine ⟨⟨fun hex => ?_, fun hn => ?_⟩, fun e he => ?_⟩
    · obtain ⟨e, he⟩ := hex
      rw [hm] at he
      exact Except.noConfusion he
    · exact Option.noConfusion hn
    · rw [hm] at he
      exact Except.noConfusion he

/-- C4: in every successful response the message field is the literal
string Hello from Rust Worker! and the service field is the literal string
rust-worker-template, whatever the request and the clock value. -/
theorem c4_constant_fields (req : Request) (env : Env) (ctx : Context) (now : DateTimeUtc)
    (u : Url) (h : Url.parse req.urlString = some u) :
    main req env ctx now =
      .ok ⟨200, [("content-type", "application/json")], serdeToString (mainData u now)⟩ ∧
    (mainData u now).getStr "message" = some "Hello from Rust Worker!" ∧
    (mainData u now).getStr "service" = some "rust-worker-template" :=
  ⟨main_ok_eq req env ctx now u h, rfl, rfl⟩

/-- Witness for c4_constant_fields at a concrete request and instant. -/
theorem c4_constant_fields_witness :
    main ⟨"GET", "https://example.com/foo?x=1", [], none⟩ ⟨[]⟩ ⟨()⟩
        ⟨2024, 6, 1, 12, 0, 0, 0⟩ =
      .ok ⟨200, [("content-type", "application/json")],
        serdeToString (mainData ⟨"https", "example.com", none, "/foo", some "x=1", none⟩
          ⟨2024, 6, 1, 12, 0, 0, 0⟩)⟩ ∧
    (mainData ⟨"https", "example.com", none, "/foo", some "x=1", none⟩
        ⟨2024, 6, 1, 12, 0, 0, 0⟩).getStr "message" = some "Hello from Rust Worker!" ∧
    (mainData ⟨"https", "example.com", none, "/foo", some "x=1", none⟩
        ⟨2024, 6, 1, 12, 0, 0, 0⟩).getStr "service" = some "rust-worker-template" :=
  c4_constant_fields _ _ _ _ _ rfl

/-- C5: the handler response is a function of the request URL string and
the observed clock instant only: method, path beyond the URL string,
headers, body, environment and context never influence it, and no state is
carried between invocations (the model is a pure function). -/
theorem c5_pure_stateless (req1 req2 : Request) (env1 env2 : Env)
    (ctx1 ctx2 : Context) (now : DateTimeUtc) (h : req1.urlString = req2.urlString) :
    main req1 env1 ctx1 now = main req2 env2 ctx2 now := by
  unfold main Request.url
  rw [h]

/-- Witness for c5_pure_stateless: method, headers, body and environment
differ, the response does not. -/
theorem c5_pure_stateless_witness :
    main ⟨"GET", "https://example.com/a", [("accept", "text/plain")], none⟩ ⟨[]⟩ ⟨()⟩
        ⟨2024, 6, 1, 12, 0, 0, 0⟩ =
      main ⟨"POST", "https://example.com/a", [], some "payload"⟩ ⟨[("KV", "ns")]⟩ ⟨()⟩
        ⟨2024, 6, 1, 12, 0, 0, 0⟩ :=
  c5_pure_stateless _ _ _ _ _ _ _ rfl

/-- C6: the timestamp field of a successful response is the RFC3339
rendering of the clock instant observed by that invocation, and for a
representable instant the rendered string parses back to that instant. -/
theorem c6_timestamp_rendering (req : Request) (env : Env) (ctx : Context)
    (now : DateTimeUtc) (u : Url) (h : Url.parse req.urlString = some u)
    (hv : now.Valid) :
    main req env ctx now =
      .ok ⟨200, [("content-type", "application/json")], serdeToString (mainData u now)⟩ ∧
    (mainData u now).getStr "timestamp" = some now.to_rfc3339 ∧
    parseRfc3339 now.to_rfc3339 = some now :=
  ⟨main_ok_eq req env ctx now u h, rfl, parseRfc3339_roundtrip now hv⟩

/-- Witness for c6_timestamp_rendering at a concrete request and instant. -/
theorem c6_timestamp_rendering_witness :
    main ⟨"GET", "https://example.com/foo?x=1", [], none⟩ ⟨[]⟩ ⟨()⟩
        ⟨2024, 6, 1, 12, 0, 0, 0⟩ =
      .ok ⟨200, [("content-type", "application/json")],
        serdeToString (mainData ⟨"https", "example.com", none, "/foo", some "x=1", none⟩
          ⟨2024, 6, 1, 12, 0, 0, 0⟩)⟩ ∧
    (mainData ⟨"https", "example.com", none, "/foo", some "x=1", none⟩
        ⟨2024, 6, 1, 12, 0, 0, 0⟩).getStr "timestamp" =
      some (DateTimeUtc.to_rfc3339 ⟨2024, 6, 1, 12, 0, 0, 0⟩) ∧
    parseRfc3339 (DateTimeUtc.to_rfc3339 ⟨2024, 6, 1, 12, 0, 0, 0⟩) =
      some ⟨2024, 6, 1, 12, 0, 0, 0⟩ :=
  c6_timestamp_rendering _ _ _ _ _ rfl (by decide)

/-- C7: two invocations observing different clock instants produce
different timestamp fields, while their message and service fields agree,
whatever the two request URLs. -/
theorem c7_timestamp_fresh (t1 t2 : DateTimeUtc) (h1 : t1.Valid) (h2 : t2.Valid)
    (hne : t1 ≠ t2) (u1 u2 : Url) :
    (mainData u1 t1).getStr "timestamp" ≠ (mainData u2 t2).getStr "timestamp" ∧
    (mainData u1 t1).getStr "message" = (mainData u2 t2).getStr "message" ∧
    (mainData u1 t1).getStr "service" = (mainData u2 t2).getStr "service" := by
  refine ⟨fun hts => ?_, rfl, rfl⟩
  have e1 : (mainData u1 t1).getStr "timestamp" = some t1.to_rfc3339 := rfl
  have e2 : (mainData u2 t2).getStr "timestamp" = some t2.to_rfc3339 := rfl
  rw [e1, e2] at hts
  exact hne (to_rfc3339_inj t1 t2 h1 h2 (Option.some.inj hts))

/-- Witness for c7_timestamp_fresh at two concrete instants one second
apart. -/
theorem c7_timestamp_fresh_witness :
    (mainData ⟨"https", "example.com", none, "/", none, none⟩
        ⟨2024, 6, 1, 12, 0, 0, 0⟩).getStr "timestamp" ≠
      (mainData ⟨"https", "example.com", none, "/b", none, none⟩
        ⟨2024, 6, 1, 12, 0, 1, 0⟩).getStr "timestamp" ∧
    (mainData ⟨"https", "example.com", none, "/", none, none⟩
        ⟨2024, 6, 1, 12, 0, 0, 0⟩).getStr "message" =
      (mainData ⟨"https", "example.com", none, "/b", none, none⟩
        ⟨2024, 6, 1, 12, 0, 1, 0⟩).getStr "message" ∧
    (mainData ⟨"https", "example.com", none, "/", none, none⟩
        ⟨2024, 6, 1, 12, 0, 0, 0⟩).getStr "service" =
      (mainData ⟨"https", "example.com", none, "/b", none, none⟩
        ⟨2024, 6, 1, 12, 0, 1, 0⟩).getStr "service" :=
  c7_timestamp_fresh _ _ (by decide) (by decide) (by decide) _ _

/-- C8: the url field of a successful response is the serialisation of the
parsed URL, so a raw request URL string whose normalised form differs is
reported in normalised form, never as the raw string. -/
theorem c8_url_is_normalized (req : Request) (env : Env) (ctx : Context)
    (now : DateTimeUtc) (u : Url) (h : Url.parse req.urlString = some u) :
    main req env ctx now =
      .ok ⟨200, [("content-type", "application/json")], serdeToString (mainData u now)⟩ ∧
    (mainData u now).getStr "url" = some u.to_string ∧
    (u.to_string ≠ req.urlString →
      (mainData u now).getStr "url" ≠ some req.urlString) := by
  refine ⟨main_ok_eq req env ctx now u h, rfl, fun hne hcon => ?_⟩
  have hu : (mainData u now).getStr "url" = some u.to_string := rfl
  rw [hu] at hcon
  exact hne (Option.some.inj hcon)

/-- Witness for c8_url_is_normalized at a URL with an explicit default port
and no path, whose normalised form differs from the raw string. -/
theorem c8_url_is_normalized_witness :
    main ⟨"GET", "https://example.com:443", [], none⟩ ⟨[]⟩ ⟨()⟩ ⟨2024, 1, 2, 3, 4, 5, 6⟩ =
      .ok ⟨200, [("content-type", "application/json")],
        serdeToString (mainData ⟨"https", "example.com", none, "/", none, none⟩
          ⟨2024, 1, 2, 3, 4, 5, 6⟩)⟩ ∧
    (mainData ⟨"https", "example.com", none, "/", none, none⟩
        ⟨2024, 1, 2, 3, 4, 5, 6⟩).getStr "url" =
      some (Url.to_string ⟨"https", "example.com", none, "/", none, none⟩) ∧
    (Url.to_string ⟨"https", "example.com", none, "/", none, none⟩ ≠
        "https://example.com:443" →
      (mainData ⟨"https", "example.com", none, "/", none, none⟩
        ⟨2024, 1, 2, 3, 4, 5, 6⟩).getStr "url" ≠ some "https://example.com:443") :=
  c8_url_is_normalized _ _ _ _ _ rfl

/-- C9: every timestamp the handler can emit ends with the explicit numeric
offset +00:00, never with the Z suffix. -/
theorem c9_offset_never_z (t : DateTimeUtc) (u : Url) :
    (mainData u t).getStr "timestamp" = some t.to_rfc3339 ∧
    (∃ p : String, t.to_rfc3339 = p ++ "+00:00") ∧
    ∀ q : String, t.to_rfc3339 ≠ q ++ "Z" := by
  refine ⟨rfl, ⟨⟨pad4 t.year ++ '-' :: (pad2 t.month ++ '-' :: (pad2 t.day ++
    'T' :: (pad2 t.hour ++ ':' :: (pad2 t.minute ++ ':' :: (pad2 t.second ++
      fracList t.nanos)))))⟩, ?_⟩, fun q hq => ?_⟩
  · show String.mk (rfc3339List t) = _
    rw [rfc3339List_split]
    rfl
  · have hd : rfc3339List t = q.data ++ ['Z'] := congrArg String.data hq
    have hl := congrArg List.getLast? hd
    rw [rfc3339List_split, List.getLast?_append_cons, List.getLast?_append_cons] at hl
    exact absurd hl (by decide)

/-- C10: the handler is total: every invocation returns either a success
response or one of the two declared error values through the Result. -/
theorem c10_totality (req : Request) (env : Env) (ctx : Context) (now : DateTimeUtc) :
    (∃ resp, main req env ctx now = .ok resp) ∨
    (∃ e, main req env ctx now = .error e ∧
      (e = .urlParseError ∨ e = .jsonError)) := by
  cases hp : Url.parse req.urlString with
  | some u => exact .inl ⟨_, main_ok_eq req env ctx now u hp⟩
  | none => exact .inr ⟨_, main_err_eq req env ctx now hp, .inl rfl⟩

end RustWorker
